import Mathlib

/-!
Verification of the superflore PKGBUILD generator core
(`superflore/generators/pkgbuild/pkgbuild.py` and
`superflore/generators/pkgbuild/gen_packages.py`).

The Python classes are shallowly embedded: the mutable `PkgBuild` object
becomes a record, its mutating methods become functions `PkgBuild → PkgBuild`,
exceptions become an explicit error type threaded through `Except`, and the
Python string primitives used by the code (`str.split` on a one-character
separator, `str.startswith`, `str.replace(pat, rep, 1)`, slicing `[1:]`)
are modelled on character lists.
-/

namespace Superflore

/-- Python `str.split(sep)` for a one-character separator, on character
lists: `"".split("-") = [""]`, `"a-b".split("-") = ["a","b"]`,
`"-".split("-") = ["",""]`. -/
def splitChar : List Char → Char → List (List Char)
  | [], _ => [[]]
  | c :: cs, sep =>
    if c = sep then [] :: splitChar cs sep
    else
      match splitChar cs sep with
      | [] => [[c]]
      | h :: t => (c :: h) :: t

/-- Python `str.startswith(pre)`. -/
def pyStartswith (s pre : String) : Bool :=
  pre.data.isPrefixOf s.data

/-- Python `str.replace(pat, rep, 1)` on character lists: replace the first
occurrence of `pat` (if any) by `rep`. -/
def replaceFirstAux : List Char → List Char → List Char → List Char
  | [], pat, rep => if pat = [] then rep else []
  | c :: cs, pat, rep =>
    if pat.isPrefixOf (c :: cs) then rep ++ (c :: cs).drop pat.length
    else c :: replaceFirstAux cs pat rep

/-- Python `str.replace(pat, rep, 1)` on strings. -/
def pyReplaceFirst (s pat rep : String) : String :=
  ⟨replaceFirstAux s.data pat.data rep.data⟩

/-- Python interpolation of a possibly-`None` string field: `str(None)`
is `"None"` inside an f-string. -/
def pyStr : Option String → String
  | none => "None"
  | some s => s

/-- `depend_only_pkgs` (pkgbuild.py lines 25-29). -/
def depend_only_pkgs : List String :=
  ["dev-util/gperf", "app-doc/doxygen", "virtual/pkgconfig"]

/-- `pkgbuild_keyword` (pkgbuild.py lines 32-44). -/
structure pkgbuild_keyword where
  arch : String
  stable : Bool
deriving Repr, DecidableEq

/-- `pkgbuild_keyword.to_string` (pkgbuild.py lines 37-41). -/
def pkgbuild_keyword.to_string (k : pkgbuild_keyword) : String :=
  if k.stable then k.arch else "~" ++ k.arch

/-- The exceptions that can escape the embedded operations:
`UnknownBuildType`, `UnresolvedDependency` (superflore.exceptions), the
`IndexError` of `self.version.split("-")[1]` on a dash-free version, and
the `AttributeError` of `None.split` when `version` was never assigned. -/
inductive RenderError where
  | unknownBuildType (build_type : String)
  | unresolvedDependency
  | indexError
  | attributeError
deriving Repr, DecidableEq

/-- `PkgBuild.__init__` field defaults (pkgbuild.py lines 52-76).
`src_uri`, `distro`, `version` and `name` start as Python `None`. -/
structure PkgBuild where
  eapi : String := "6"
  description : String := ""
  homepage : String := "https://wiki.ros.org"
  src_uri : Option String := none
  upstream_license : List String := ["LGPL-2"]
  keys : List pkgbuild_keyword := []
  rdepends : List String := []
  rdepends_external : List String := []
  depends : List String := []
  depends_external : List String := []
  tdepends : List String := []
  tdepends_external : List String := []
  distro : Option String := none
  cmake_package : Bool := true
  version : Option String := none
  unresolved_deps : List String := []
  name : Option String := none
  has_patches : Bool := false
  build_type : String := "catkin"
  is_ros2 : Bool := false
  python_3 : Bool := true
  patches : List String := []
deriving Repr, DecidableEq

/-- A freshly constructed `PkgBuild()`. -/
def PkgBuild.init : PkgBuild := {}

/-- The illegal description characters (pkgbuild.py line 76). -/
def illegal_desc_chars : String :=
  "()[]\x7b\x7d|^$\\#\t\n\r\x0b\x0c\x27\"\x60"

/-- `PkgBuild.add_build_depend` (pkgbuild.py lines 78-86). -/
def PkgBuild.add_build_depend (p : PkgBuild) (depend : String)
    (internal : Bool) : PkgBuild :=
  if depend ∈ p.rdepends then p
  else if depend ∈ p.rdepends_external then p
  else if internal then { p with depends := p.depends ++ [depend] }
  else { p with depends_external := p.depends_external ++ [depend] }

/-- `PkgBuild.add_run_depend` (pkgbuild.py lines 88-94). -/
def PkgBuild.add_run_depend (p : PkgBuild) (rdepend : String)
    (internal : Bool) : PkgBuild :=
  if rdepend ∈ depend_only_pkgs ∧ internal = false then
    { p with depends_external := p.depends_external ++ [rdepend] }
  else if internal then { p with rdepends := p.rdepends ++ [rdepend] }
  else { p with rdepends_external := p.rdepends_external ++ [rdepend] }

/-- `PkgBuild.add_test_depend` (pkgbuild.py lines 96-100). -/
def PkgBuild.add_test_depend (p : PkgBuild) (tdepend : String)
    (internal : Bool) : PkgBuild :=
  if internal = false then
    { p with tdepends_external := p.tdepends_external ++ [tdepend] }
  else { p with tdepends := p.tdepends ++ [tdepend] }

/-- `PkgBuild.add_keyword` (pkgbuild.py lines 102-103). -/
def PkgBuild.add_keyword (p : PkgBuild) (keyword : String)
    (stable : Bool) : PkgBuild :=
  { p with keys := p.keys ++ [⟨keyword, stable⟩] }

/-- `PkgBuild.get_eapi_line` (pkgbuild.py lines 112-113). -/
def PkgBuild.get_eapi_line (p : PkgBuild) : String :=
  "EAPI=" ++ p.eapi ++ "\n"

/-- `PkgBuild.get_inherit_line` (pkgbuild.py lines 123-132); the `raise
UnknownBuildType(self.build_type)` branch becomes an `Except.error`. -/
def PkgBuild.get_inherit_line (p : PkgBuild) : Except RenderError String :=
  if p.build_type ∈ (["catkin", "cmake"] : List String) then
    .ok "inherit ros-cmake\n\n"
  else if p.build_type = "ament_python" then .ok "inherit ament-python\n\n"
  else if p.build_type = "ament_cmake" then .ok "inherit ament-cmake\n\n"
  else .error (.unknownBuildType p.build_type)

/-- Modelled from the spec: `superflore.utils.sanitize_string` is not under
src/; per the spec it strips each character of the illegal set from the
raw description. -/
def sanitize_string (s illegal : String) : String :=
  ⟨s.data.filter (fun c => !illegal.data.contains c)⟩

/-- Modelled from the spec: `superflore.utils.trim_string` is not under
src/; per the spec it truncates overlong text to the format maximum field
length with a trailing marker (the exact length and marker are a
configuration constant). -/
def trim_string (s : String) : String :=
  if s.length ≤ 80 then s else (⟨s.data.take 75⟩ : String) ++ "[...]"

/-- The `build()` shell block emitted by `get_pkgbuild_text`
(pkgbuild.py lines 173-179). -/
def build_block (distro : String) : String :=
  "\nbuild() \x7b\n    cd \"$\x7bsrcdir\x7d\"\n    [ -f /opt/ros/" ++ distro
    ++ "/setup.bash ] && source /opt/ros/" ++ distro
    ++ "/setup.bash\n    colcon build\n\x7d\n"

/-- The `package()` shell block emitted by `get_pkgbuild_text`
(pkgbuild.py lines 181-191). -/
def package_block (distro : String) : String :=
  "\npackage() \x7b\n    cd \"$\x7bsrcdir\x7d\"\n    colcon build --install-base \"$\x7bpkgdir\x7d\"/opt/ros/"
    ++ distro ++ "\n    rm \"$\x7bpkgdir\x7d\"/opt/ros/" ++ distro
    ++ "/*setup*\n    rm \"$\x7bpkgdir\x7d\"/opt/ros/" ++ distro
    ++ "/COLCON_IGNORE\n    rm \"$\x7bpkgdir\x7d\"/opt/ros/" ++ distro
    ++ "/.colcon_install_layout\n    chown -R ros:ros \"$\x7bpkgdir\x7d\"/opt/ros/"
    ++ distro ++ "\n    chmod -R 777 \"$\x7bpkgdir\x7d\"/opt/ros/" ++ distro
    ++ "\n\x7d\n"

/-- The python3-prefix rewrite applied to each dependency entry
(pkgbuild.py lines 161-163 and 167-169): entries starting with
`"python3"` get their first `"python3"` occurrence replaced by
`"python"`. -/
def python3_rewrite (dep : String) : String :=
  if pyStartswith dep "python3" then pyReplaceFirst dep "python3" "python"
  else dep

/-- `PkgBuild.get_pkgbuild_text` (pkgbuild.py lines 134-192), split into
the `entries` list the Python code accumulates; the final text joins them
with newlines.  A `None` version fails like Python `None.split`
(AttributeError); a dash-free version fails like `split("-")[1]`
(IndexError).  `distributor` and `license_text` are accepted and unused,
exactly as in the source body. -/
def PkgBuild.get_pkgbuild_entries (p : PkgBuild)
    (distributor license_text : String) : Except RenderError (List String) :=
  match p.version with
  | none => .error .attributeError
  | some v =>
    let desc := trim_string (sanitize_string p.description illegal_desc_chars)
    let distro := pyStr p.distro
    let name := pyStr p.name
    match splitChar v.data '-' with
    | [] => .error .indexError
    | [_] => .error .indexError
    | part0 :: part1 :: _ =>
      let version_str : String := ⟨part0⟩
      let rc : String := ⟨part1.drop 1⟩
      let license_str := p.upstream_license.map
        (fun ul => "\x27" ++ ul ++ "\x27")
      let ros_deps := p.depends.map (fun d => "ros-" ++ distro ++ "-" ++ d)
      let dependencies := (ros_deps ++ p.depends_external).map python3_rewrite
      let ros_rdeps := p.rdepends.map (fun d => "ros-" ++ distro ++ "-" ++ d)
      let rdependencies :=
        (ros_rdeps ++ p.rdepends_external).map python3_rewrite
      .ok [
        "# Script generated with superflore",
        "# Maintainer: Sebastian Mai <sebastian.mai@ovgu.de>",
        "pkgname=\x27ros-" ++ distro ++ "-" ++ name ++ "\x27",
        "pkgdesc=\"" ++ desc ++ "\"",
        "url=" ++ p.homepage,
        "pkgver=" ++ version_str,
        "arch=(\x27any\x27)",
        "pkgrel=" ++ rc,
        "license=(" ++ String.intercalate " " license_str ++ ")",
        "epoch=0",
        "groups=(\x27ros\x27 \x27ros-" ++ distro ++ "\x27)",
        "makedepends=(" ++ String.intercalate " " dependencies ++ ")",
        "depends=(" ++ String.intercalate " " rdependencies ++ ")",
        "source=(\"ros-" ++ distro ++ "-" ++ name ++ "-" ++ v
          ++ ".tar.gz::" ++ pyStr p.src_uri ++ "\")",
        "md5sums=(\x27SKIP\x27)",
        build_block distro,
        package_block distro]

/-- `PkgBuild.get_pkgbuild_text` final result: `"\n".join(entries)`. -/
def PkgBuild.get_pkgbuild_text (p : PkgBuild)
    (distributor license_text : String) : Except RenderError String :=
  (p.get_pkgbuild_entries distributor license_text).map
    (String.intercalate "\n")

/-- `PkgBuild.get_unresolved` (pkgbuild.py lines 194-195). -/
def PkgBuild.get_unresolved (p : PkgBuild) : List String :=
  p.unresolved_deps

/-- `PackageMetadata` fields consumed by `_gen_pkgbuild_for_package`
(gen_packages.py lines 162-166). -/
structure PackageMetadata where
  upstream_license : List String
  description : String
  homepage : String
  build_type : String
deriving Repr, DecidableEq

/-- `no_python3` (gen_packages.py line 39). -/
def no_python3 : List String := ["tf"]

/-- `org` (gen_packages.py line 41). -/
def org : String := "Open Source Robotics Foundation"

/-- `org_license` (gen_packages.py line 42). -/
def org_license : String := "BSD"

/-- `pkg_keywords` (gen_packages.py line 134). -/
def pkg_keywords : List String := ["x86", "amd64", "arm", "arm64"]

/-- `_gen_pkgbuild_for_package` (gen_packages.py lines 119-167).  The
dependency lists returned by the `DependencyWalker`, the distribution
package-name index `pkg_names[0]`, the rosinstall source URI, and the
outcome of the `get_package_xml` network fetch (`none` = the fetch raised
and the `except` branch returns early) are the function's inputs. -/
def gen_pkgbuild_for_package (distro_name : String) (src_uri : String)
    (pkg_names : List String)
    (pkg_buildtool_deps pkg_build_deps pkg_run_deps pkg_test_deps :
      List String)
    (pkg_xml : Option PackageMetadata) : PkgBuild :=
  let q : PkgBuild :=
    { PkgBuild.init with distro := some distro_name, src_uri := some src_uri }
  let q := pkg_run_deps.foldl
    (fun q rdep => q.add_run_depend rdep (pkg_names.contains rdep)) q
  let q := pkg_build_deps.foldl
    (fun q bdep => q.add_build_depend bdep (pkg_names.contains bdep)) q
  let q := pkg_buildtool_deps.foldl
    (fun q tdep => q.add_build_depend tdep (pkg_names.contains tdep)) q
  let q := pkg_test_deps.foldl
    (fun q test_dep => q.add_test_depend test_dep
      (pkg_names.contains test_dep)) q
  let q := pkg_keywords.foldl (fun q key => q.add_keyword key false) q
  match pkg_xml with
  | none => q
  | some pkg =>
    { q with
        upstream_license := pkg.upstream_license,
        description := pkg.description,
        homepage := pkg.homepage,
        build_type := pkg.build_type }

/-- Total number of occurrences of a dependency name across the six
dependency buckets of a model. -/
def bucketCount (p : PkgBuild) (d : String) : Nat :=
  p.depends.count d + p.depends_external.count d + p.rdepends.count d
    + p.rdepends_external.count d + p.tdepends.count d
    + p.tdepends_external.count d

/-- The spec reading of the pkgrel field: the full substring of `version`
after the FIRST dash, with its leading character stripped.  Stated from
the spec wording, for comparison with what the code computes. -/
def claimed_pkgrel (v : String) : String :=
  match splitChar v.data '-' with
  | [] => ""
  | _ :: rest => ⟨(List.intercalate ['-'] rest).drop 1⟩

/-- The four descriptive fields the builder fills from the package XML. -/
def descrFields (p : PkgBuild) : List String × String × String × String :=
  (p.upstream_license, p.description, p.homepage, p.build_type)

/-- The mutations the repository performs on a `PkgBuild`: the four
insertion methods plus the direct field assignments done by
`regenerate_pkg`, `_gen_pkgbuild_for_package` and `arch_pkgbuild`. -/
inductive Op where
  | buildDep (depend : String) (internal : Bool)
  | runDep (rdepend : String) (internal : Bool)
  | testDep (tdepend : String) (internal : Bool)
  | keyword (arch : String) (stable : Bool)
  | setName (v : Option String)
  | setVersion (v : Option String)
  | setDistro (v : Option String)
  | setSrcUri (v : Option String)
  | setPatches (v : List String)
  | setIsRos2 (v : Bool)
  | setHasPatches (v : Bool)
  | setPython3 (v : Bool)
  | setUpstreamLicense (v : List String)
  | setDescription (v : String)
  | setHomepage (v : String)
  | setBuildType (v : String)

/-- Apply one repository mutation to a model. -/
def applyOp (p : PkgBuild) : Op → PkgBuild
  | .buildDep d i => p.add_build_depend d i
  | .runDep d i => p.add_run_depend d i
  | .testDep d i => p.add_test_depend d i
  | .keyword a s => p.add_keyword a s
  | .setName v => { p with name := v }
  | .setVersion v => { p with version := v }
  | .setDistro v => { p with distro := v }
  | .setSrcUri v => { p with src_uri := v }
  | .setPatches v => { p with patches := v }
  | .setIsRos2 v => { p with is_ros2 := v }
  | .setHasPatches v => { p with has_patches := v }
  | .setPython3 v => { p with python_3 := v }
  | .setUpstreamLicense v => { p with upstream_license := v }
  | .setDescription v => { p with description := v }
  | .setHomepage v => { p with homepage := v }
  | .setBuildType v => { p with build_type := v }

/-- Model states reachable in the repository: a fresh `PkgBuild()`,
anything obtained from a reachable state by one of the repository's
mutations, and any output of `_gen_pkgbuild_for_package`. -/
inductive Reachable : PkgBuild → Prop
  | init : Reachable PkgBuild.init
  | step {p : PkgBuild} (hp : Reachable p) (op : Op) :
      Reachable (applyOp p op)
  | builder (dn su : String) (ns btd bd rd td : List String)
      (m : Option PackageMetadata) :
      Reachable (gen_pkgbuild_for_package dn su ns btd bd rd td m)

/-! ## Helper lemmas about the embedded Python string primitives -/

/-- Splitting a list that does not contain the separator yields the whole
list as the single field, as in Python. -/
theorem splitChar_of_not_mem {l : List Char} {sep : Char} (h : sep ∉ l) :
    splitChar l sep = [l] := by
  induction l with
  | nil => rfl
  | cons c cs ih =>
    rw [List.mem_cons, not_or] at h
    have hc : ¬ c = sep := fun he => h.1 he.symm
    simp only [splitChar, if_neg hc, ih h.2]

/-- The first field of a split is the longest separator-free prefix, i.e.
the substring before the first separator. -/
theorem splitChar_head (l : List Char) (sep : Char) :
    ∃ t, splitChar l sep = (l.takeWhile (fun c => c != sep)) :: t := by
  induction l with
  | nil => exact ⟨[], rfl⟩
  | cons c cs ih =>
    obtain ⟨t, ht⟩ := ih
    by_cases hc : c = sep
    · exact ⟨splitChar cs sep, by simp [splitChar, hc]⟩
    · exact ⟨t, by simp [splitChar, hc, ht]⟩

/-- When the pattern is a prefix of the subject, replacing its first
occurrence rewrites exactly that leading prefix. -/
theorem replaceFirstAux_leading {l pat : List Char} (rep : List Char)
    (h : pat.isPrefixOf l = true) :
    replaceFirstAux l pat rep = rep ++ l.drop pat.length := by
  cases l with
  | nil =>
    cases pat with
    | nil => simp [replaceFirstAux]
    | cons c cs => simp [List.isPrefixOf] at h
  | cons c cs => simp [replaceFirstAux, h]

/-- Characterisation of the python3 entry rewrite: an entry beginning
with "python3" is rewritten to begin with "python" (only the leading
occurrence is touched), all other entries are left verbatim. -/
theorem python3_rewrite_eq (s : String) :
    python3_rewrite s
      = if pyStartswith s "python3" then
          "python" ++ (⟨s.data.drop 7⟩ : String)
        else s := by
  unfold python3_rewrite pyReplaceFirst
  by_cases h : pyStartswith s "python3"
  · rw [if_pos h, if_pos h]
    have hp : ("python3".data).isPrefixOf s.data = true := h
    rw [replaceFirstAux_leading _ hp]
    rfl
  · rw [if_neg h, if_neg h]

/-! ## Helper lemmas about the model operations -/

/-- A fold over a list preserves any projection preserved by each step. -/
theorem foldl_preserves {α β : Type} (g : PkgBuild → β)
    (f : PkgBuild → α → PkgBuild) (hf : ∀ q a, g (f q a) = g q) :
    ∀ (l : List α) (p : PkgBuild), g (l.foldl f p) = g p := by
  intro l
  induction l with
  | nil => intro p; rfl
  | cons a t ih => intro p; rw [List.foldl_cons, ih, hf]

/-- `add_build_depend` never changes the descriptive fields. -/
theorem descrFields_add_build (p : PkgBuild) (d : String) (i : Bool) :
    descrFields (p.add_build_depend d i) = descrFields p := by
  by_cases h1 : d ∈ p.rdepends <;> by_cases h2 : d ∈ p.rdepends_external <;>
    cases i <;> simp [PkgBuild.add_build_depend, h1, h2, descrFields]

/-- `add_run_depend` never changes the descriptive fields. -/
theorem descrFields_add_run (p : PkgBuild) (d : String) (i : Bool) :
    descrFields (p.add_run_depend d i) = descrFields p := by
  by_cases h : d ∈ depend_only_pkgs <;> cases i <;>
    simp [PkgBuild.add_run_depend, h, descrFields]

/-- `add_test_depend` never changes the descriptive fields. -/
theorem descrFields_add_test (p : PkgBuild) (d : String) (i : Bool) :
    descrFields (p.add_test_depend d i) = descrFields p := by
  cases i <;> simp [PkgBuild.add_test_depend, descrFields]

/-- `add_build_depend` never touches `unresolved_deps`. -/
theorem unresolved_add_build (p : PkgBuild) (d : String) (i : Bool) :
    (p.add_build_depend d i).unresolved_deps = p.unresolved_deps := by
  by_cases h1 : d ∈ p.rdepends <;> by_cases h2 : d ∈ p.rdepends_external <;>
    cases i <;> simp [PkgBuild.add_build_depend, h1, h2]

/-- `add_run_depend` never touches `unresolved_deps`. -/
theorem unresolved_add_run (p : PkgBuild) (d : String) (i : Bool) :
    (p.add_run_depend d i).unresolved_deps = p.unresolved_deps := by
  by_cases h : d ∈ depend_only_pkgs <;> cases i <;>
    simp [PkgBuild.add_run_depend, h]

/-- `add_test_depend` never touches `unresolved_deps`. -/
theorem unresolved_add_test (p : PkgBuild) (d : String) (i : Bool) :
    (p.add_test_depend d i).unresolved_deps = p.unresolved_deps := by
  cases i <;> simp [PkgBuild.add_test_depend]

/-- No repository mutation touches `unresolved_deps`. -/
theorem unresolved_applyOp (p : PkgBuild) (op : Op) :
    (applyOp p op).unresolved_deps = p.unresolved_deps := by
  cases op <;>
    simp [applyOp, unresolved_add_build, unresolved_add_run,
      unresolved_add_test, PkgBuild.add_keyword]

/-- The builder output always carries an empty `unresolved_deps` list. -/
theorem unresolved_gen (dn su : String) (ns btd bd rd td : List String)
    (m : Option PackageMetadata) :
    (gen_pkgbuild_for_package dn su ns btd bd rd td m).unresolved_deps
      = [] := by
  have h1 := foldl_preserves PkgBuild.unresolved_deps
    (fun q rdep => q.add_run_depend rdep (ns.contains rdep))
    (fun q a => unresolved_add_run q a (ns.contains a)) rd
  have h2 := foldl_preserves PkgBuild.unresolved_deps
    (fun q bdep => q.add_build_depend bdep (ns.contains bdep))
    (fun q a => unresolved_add_build q a (ns.contains a)) bd
  have h3 := foldl_preserves PkgBuild.unresolved_deps
    (fun q tdep => q.add_build_depend tdep (ns.contains tdep))
    (fun q a => unresolved_add_build q a (ns.contains a)) btd
  have h4 := foldl_preserves PkgBuild.unresolved_deps
    (fun q test_dep => q.add_test_depend test_dep (ns.contains test_dep))
    (fun q a => unresolved_add_test q a (ns.contains a)) td
  have h5 := foldl_preserves PkgBuild.unresolved_deps
    (fun q key => q.add_keyword key false)
    (fun q a => rfl) pkg_keywords
  cases m with
  | none =>
    simp only [gen_pkgbuild_for_package]
    rw [h5, h4, h3, h2, h1]
    rfl
  | some pkg =>
    simp only [gen_pkgbuild_for_package]
    rw [h5, h4, h3, h2, h1]
    rfl

/-- On fetch failure the builder output keeps all four descriptive fields
at the `PkgBuild.__init__` defaults. -/
theorem descrFields_gen_none (dn su : String)
    (ns btd bd rd td : List String) :
    descrFields (gen_pkgbuild_for_package dn su ns btd bd rd td none)
      = (["LGPL-2"], "", "https://wiki.ros.org", "catkin") := by
  have h1 := foldl_preserves descrFields
    (fun q rdep => q.add_run_depend rdep (ns.contains rdep))
    (fun q a => descrFields_add_run q a (ns.contains a)) rd
  have h2 := foldl_preserves descrFields
    (fun q bdep => q.add_build_depend bdep (ns.contains bdep))
    (fun q a => descrFields_add_build q a (ns.contains a)) bd
  have h3 := foldl_preserves descrFields
    (fun q tdep => q.add_build_depend tdep (ns.contains tdep))
    (fun q a => descrFields_add_build q a (ns.contains a)) btd
  have h4 := foldl_preserves descrFields
    (fun q test_dep => q.add_test_depend test_dep (ns.contains test_dep))
    (fun q a => descrFields_add_test q a (ns.contains a)) td
  have h5 := foldl_preserves descrFields
    (fun q key => q.add_keyword key false)
    (fun q a => rfl) pkg_keywords
  simp only [gen_pkgbuild_for_package]
  rw [h5, h4, h3, h2, h1]
  rfl

/-! ## Helper lemmas about rendering -/

/-- Shape of a successful render: when `version` is set and splits into at
least two dash-fields, `get_pkgbuild_entries` returns exactly the
seventeen entries the source accumulates. -/
theorem get_pkgbuild_entries_eq (p : PkgBuild) (v dl lt : String)
    (p0 p1 : List Char) (t : List (List Char))
    (hv : p.version = some v) (hs : splitChar v.data '-' = p0 :: p1 :: t) :
    p.get_pkgbuild_entries dl lt = .ok [
      "# Script generated with superflore",
      "# Maintainer: Sebastian Mai <sebastian.mai@ovgu.de>",
      "pkgname=\x27ros-" ++ pyStr p.distro ++ "-" ++ pyStr p.name ++ "\x27",
      "pkgdesc=\"" ++ trim_string (sanitize_string p.description
        illegal_desc_chars) ++ "\"",
      "url=" ++ p.homepage,
      "pkgver=" ++ (⟨p0⟩ : String),
      "arch=(\x27any\x27)",
      "pkgrel=" ++ (⟨p1.drop 1⟩ : String),
      "license=(" ++ String.intercalate " " (p.upstream_license.map
        (fun ul => "\x27" ++ ul ++ "\x27")) ++ ")",
      "epoch=0",
      "groups=(\x27ros\x27 \x27ros-" ++ pyStr p.distro ++ "\x27)",
      "makedepends=(" ++ String.intercalate " "
        (((p.depends.map (fun d => "ros-" ++ pyStr p.distro ++ "-" ++ d))
          ++ p.depends_external).map python3_rewrite) ++ ")",
      "depends=(" ++ String.intercalate " "
        (((p.rdepends.map (fun d => "ros-" ++ pyStr p.distro ++ "-" ++ d))
          ++ p.rdepends_external).map python3_rewrite) ++ ")",
      "source=(\"ros-" ++ pyStr p.distro ++ "-" ++ pyStr p.name ++ "-" ++ v
        ++ ".tar.gz::" ++ pyStr p.src_uri ++ "\")",
      "md5sums=(\x27SKIP\x27)",
      build_block (pyStr p.distro),
      package_block (pyStr p.distro)] := by
  unfold PkgBuild.get_pkgbuild_entries
  rw [hv]
  simp only [hs]

/-- The only errors `get_pkgbuild_entries` can produce are the version
data errors: the AttributeError of an unset version and the IndexError of
a dash-free version. -/
theorem entries_error_cases (p : PkgBuild) (dl lt : String)
    (e : RenderError) (h : p.get_pkgbuild_entries dl lt = .error e) :
    e = .attributeError ∨ e = .indexError := by
  unfold PkgBuild.get_pkgbuild_entries at h
  split at h
  · exact Or.inl (Except.error.inj h).symm
  · split at h
    · exact Or.inr (Except.error.inj h).symm
    · exact Or.inr (Except.error.inj h).symm
    · cases h

/-- The only errors `get_pkgbuild_text` can produce are the version data
errors; in particular it never raises `UnknownBuildType` or
`UnresolvedDependency`. -/
theorem render_error_cases (p : PkgBuild) (dl lt : String)
    (e : RenderError) (h : p.get_pkgbuild_text dl lt = .error e) :
    e = .attributeError ∨ e = .indexError := by
  unfold PkgBuild.get_pkgbuild_text at h
  cases he : p.get_pkgbuild_entries dl lt with
  | error e2 =>
    rw [he] at h
    simp only [Except.map] at h
    exact (Except.error.inj h) ▸ entries_error_cases p dl lt e2 he
  | ok es =>
    rw [he] at h
    simp [Except.map] at h

/-! ## Claim theorems -/

/-- Claim C1, counterexample: a model whose buildType is the unrecognized
value "unknown" still renders successfully, so the claim that
`get_pkgbuild_text` raises `UnknownBuildType` on it is false. -/
theorem C1_counterexample :
    (({ PkgBuild.init with
          build_type := "unknown",
          version := some "1.2.3-r4" } : PkgBuild).get_pkgbuild_text
        org org_license).isOk = true := by decide

/-- Claim C1 (amended): `get_inherit_line` raises `UnknownBuildType` for
every buildType outside the four recognized values, but the render
operation `get_pkgbuild_text` never calls it and never raises
`UnknownBuildType` for any buildType. -/
theorem C1_unknown_build_type_amended :
    (∀ p : PkgBuild,
        p.build_type ∉ (["catkin", "cmake", "ament_python", "ament_cmake"] :
          List String) →
        p.get_inherit_line = .error (.unknownBuildType p.build_type)) ∧
    (∀ (p : PkgBuild) (dl lt bt : String),
        p.get_pkgbuild_text dl lt ≠ .error (.unknownBuildType bt)) := by
  constructor
  · intro p hp
    simp only [List.mem_cons, List.not_mem_nil, or_false, not_or] at hp
    obtain ⟨h1, h2, h3, h4⟩ := hp
    simp [PkgBuild.get_inherit_line, h1, h2, h3, h4]
  · intro p dl lt bt h
    rcases render_error_cases p dl lt _ h with h1 | h1 <;> cases h1

/-- Witness for the amended C1 at buildType "unknown". -/
theorem C1_witness :
    ({ PkgBuild.init with build_type := "unknown" } :
        PkgBuild).get_inherit_line = .error (.unknownBuildType "unknown") :=
  C1_unknown_build_type_amended.1 _ (by decide)

/-- Claim C2, counterexample: the allow-list entry "dev-util/gperf" with
isInternal = false is appended to `depends_external` (the EXTERNAL BUILD
bucket), not to `rdepends_external`, and afterwards appears in neither
run bucket — refuting both parts of the claim. -/
theorem C2_counterexample :
    (PkgBuild.init.add_run_depend "dev-util/gperf" false).rdepends_external
        = [] ∧
    (PkgBuild.init.add_run_depend "dev-util/gperf" false).rdepends = [] ∧
    (PkgBuild.init.add_run_depend "dev-util/gperf" false).depends_external
        = ["dev-util/gperf"] := by decide

/-- Claim C2 (amended): allow-list names with isInternal = false are
routed to the external BUILD bucket `depends_external`, so they appear in
no run bucket; every other call appends the name to `rdepends` when
isInternal and to `rdepends_external` otherwise, so those names land in
exactly one run bucket. -/
theorem C2_add_run_depend_amended :
    (∀ (p : PkgBuild) (d : String), d ∈ depend_only_pkgs →
        p.add_run_depend d false
          = { p with depends_external := p.depends_external ++ [d] }) ∧
    (∀ (p : PkgBuild) (d : String), d ∉ depend_only_pkgs →
        p.add_run_depend d false
          = { p with rdepends_external := p.rdepends_external ++ [d] }) ∧
    (∀ (p : PkgBuild) (d : String),
        p.add_run_depend d true
          = { p with rdepends := p.rdepends ++ [d] }) :=
  ⟨fun p d h => by simp [PkgBuild.add_run_depend, h],
   fun p d h => by simp [PkgBuild.add_run_depend, h],
   fun p d => by simp [PkgBuild.add_run_depend]⟩

/-- Witness for the amended C2 at one allow-list and one ordinary name. -/
theorem C2_witness :
    PkgBuild.init.add_run_depend "app-doc/doxygen" false
      = { PkgBuild.init with depends_external := ["app-doc/doxygen"] } ∧
    PkgBuild.init.add_run_depend "rclcpp" false
      = { PkgBuild.init with rdepends_external := ["rclcpp"] } :=
  ⟨C2_add_run_depend_amended.1 _ _ (by decide),
   C2_add_run_depend_amended.2.1 _ _ (by decide)⟩

/-- Claim C3, counterexample: inserting "foo" as a build dependency and
then as a run dependency leaves it in two buckets at once, so the
six-bucket exclusivity invariant is not preserved by every insertion
sequence. -/
theorem C3_counterexample :
    "foo" ∈ ((PkgBuild.init.add_build_depend "foo" true).add_run_depend
        "foo" true).depends ∧
    "foo" ∈ ((PkgBuild.init.add_build_depend "foo" true).add_run_depend
        "foo" true).rdepends ∧
    bucketCount ((PkgBuild.init.add_build_depend "foo" true).add_run_depend
        "foo" true) "foo" = 2 := by decide

/-- Claim C3 (amended): a single insertion of a name occurring in no
bucket places it in exactly one of the six buckets, and
`add_build_depend` refuses names already in a run bucket; but
`add_run_depend` and `add_test_depend` do not consult the other buckets,
so exclusivity does not survive arbitrary call sequences. -/
theorem C3_bucket_exclusivity_amended :
    (∀ (p : PkgBuild) (d : String) (i : Bool), bucketCount p d = 0 →
        bucketCount (p.add_build_depend d i) d = 1 ∧
        bucketCount (p.add_run_depend d i) d = 1 ∧
        bucketCount (p.add_test_depend d i) d = 1) ∧
    (∀ (p : PkgBuild) (d : String) (i : Bool),
        d ∈ p.rdepends ∨ d ∈ p.rdepends_external →
        p.add_build_depend d i = p) := by
  constructor
  · intro p d i h
    simp only [bucketCount] at h
    have h1 : p.depends.count d = 0 := by omega
    have h2 : p.depends_external.count d = 0 := by omega
    have h3 : p.rdepends.count d = 0 := by omega
    have h4 : p.rdepends_external.count d = 0 := by omega
    have h5 : p.tdepends.count d = 0 := by omega
    have h6 : p.tdepends_external.count d = 0 := by omega
    have m3 : d ∉ p.rdepends := List.count_eq_zero.mp h3
    have m4 : d ∉ p.rdepends_external := List.count_eq_zero.mp h4
    refine ⟨?_, ?_, ?_⟩
    · cases i <;>
        simp [PkgBuild.add_build_depend, m3, m4, bucketCount,
          List.count_append, h1, h2, h3, h4, h5, h6]
    · by_cases hd : d ∈ depend_only_pkgs <;> cases i <;>
        simp [PkgBuild.add_run_depend, hd, bucketCount,
          List.count_append, h1, h2, h3, h4, h5, h6]
    · cases i <;>
        simp [PkgBuild.add_test_depend, bucketCount, List.count_append,
          h1, h2, h3, h4, h5, h6]
  · intro p d i h
    rcases h with h | h <;> simp [PkgBuild.add_build_depend, h]

/-- Witness for the amended C3: one fresh insertion and one refused
build insertion. -/
theorem C3_witness :
    bucketCount (PkgBuild.init.add_build_depend "x" true) "x" = 1 ∧
    ({ PkgBuild.init with rdepends := ["y"] } : PkgBuild).add_build_depend
        "y" false = { PkgBuild.init with rdepends := ["y"] } :=
  ⟨(C3_bucket_exclusivity_amended.1 PkgBuild.init "x" true (by decide)).1,
   C3_bucket_exclusivity_amended.2 _ "y" false (by decide)⟩

/-- Claim C4: the unresolvedDependencies list stays empty in every
reachable model state, `get_unresolved` always returns the empty list
there, and no render ever fails with `UnresolvedDependency`, so the
rendering-aborted-on-unresolved path in `regenerate_pkg` is unreachable. -/
theorem C4_unresolved_unreachable :
    (∀ p : PkgBuild, Reachable p →
        p.unresolved_deps = [] ∧ p.get_unresolved = []) ∧
    (∀ (p : PkgBuild) (dl lt : String),
        p.get_pkgbuild_text dl lt ≠ .error .unresolvedDependency) := by
  constructor
  · intro p hp
    have h : p.unresolved_deps = [] := by
      induction hp with
      | init => rfl
      | step hp op ih => rw [unresolved_applyOp]; exact ih
      | builder dn su ns btd bd rd td m =>
        exact unresolved_gen dn su ns btd bd rd td m
    exact ⟨h, h⟩
  · intro p dl lt h
    rcases render_error_cases p dl lt _ h with h1 | h1 <;> cases h1

/-- Witness for C4 at the freshly constructed model. -/
theorem C4_witness :
    PkgBuild.init.unresolved_deps = [] ∧
    PkgBuild.init.get_unresolved = [] :=
  C4_unresolved_unreachable.1 PkgBuild.init Reachable.init

/-- Claim C5: the rendered text does not depend on the test-dependency
buckets, the keyword list, the buildType value, or the python_3 flag —
overriding exactly those fields leaves the output unchanged. -/
theorem C5_render_ignores_untracked_fields (p : PkgBuild)
    (t1 t2 : List String) (k : List pkgbuild_keyword) (bt : String)
    (py : Bool) (dl lt : String) :
    ({ p with
        tdepends := t1,
        tdepends_external := t2,
        keys := k,
        build_type := bt,
        python_3 := py } : PkgBuild).get_pkgbuild_text dl lt
      = p.get_pkgbuild_text dl lt := rfl

/-- Claim C6: `add_build_depend` is a no-op for names already in a run
bucket (no bucket grows); otherwise it appends to `depends` or
`depends_external` by the internal flag, and performs no within-bucket
de-duplication — two identical calls append twice. -/
theorem C6_add_build_depend_spec :
    (∀ (p : PkgBuild) (d : String) (i : Bool),
        d ∈ p.rdepends ∨ d ∈ p.rdepends_external →
        p.add_build_depend d i = p) ∧
    (∀ (p : PkgBuild) (d : String),
        d ∉ p.rdepends → d ∉ p.rdepends_external →
        p.add_build_depend d true = { p with depends := p.depends ++ [d] } ∧
        p.add_build_depend d false
          = { p with depends_external := p.depends_external ++ [d] } ∧
        ((p.add_build_depend d true).add_build_depend d true).depends
          = p.depends ++ [d, d] ∧
        ((p.add_build_depend d false).add_build_depend d
            false).depends_external
          = p.depends_external ++ [d, d]) := by
  constructor
  · intro p d i h
    rcases h with h | h <;> simp [PkgBuild.add_build_depend, h]
  · intro p d h1 h2
    refine ⟨by simp [PkgBuild.add_build_depend, h1, h2],
            by simp [PkgBuild.add_build_depend, h1, h2], ?_, ?_⟩ <;>
      simp [PkgBuild.add_build_depend, h1, h2]

/-- Witness for C6: a refused insertion and a fresh insertion. -/
theorem C6_witness :
    ({ PkgBuild.init with rdepends := ["r"] } : PkgBuild).add_build_depend
        "r" true = { PkgBuild.init with rdepends := ["r"] } ∧
    PkgBuild.init.add_build_depend "x" true
      = { PkgBuild.init with depends := ["x"] } :=
  ⟨C6_add_build_depend_spec.1 _ "r" true (by decide),
   (C6_add_build_depend_spec.2 PkgBuild.init "x" (by decide) (by decide)).1⟩

/-- Claim C7, counterexample: for version "1.0-r4-x" the claim reading of
pkgrel (substring after the FIRST dash with the leading tag stripped) is
"4-x", but the rendered pkgrel field is "4" — the code takes only the
second dash-field. -/
theorem C7_counterexample :
    (({ PkgBuild.init with version := some "1.0-r4-x" } :
        PkgBuild).get_pkgbuild_entries org org_license).map
        (fun es => es[7]?) = .ok (some "pkgrel=4") ∧
    claimed_pkgrel "1.0-r4-x" = "4-x" ∧
    ("pkgrel=4" : String) ≠ "pkgrel=" ++ claimed_pkgrel "1.0-r4-x" :=
  ⟨rfl, rfl, by decide⟩

/-- Claim C7 (amended): pkgver is the substring of version before the
first dash, and pkgrel is the SECOND dash-separated field of version with
its leading character stripped — which coincides with the claim exactly
when version contains a single dash; the two example versions of the
claim render as it states. -/
theorem C7_version_split_amended :
    (∀ (p : PkgBuild) (v dl lt : String) (p0 p1 : List Char)
        (t : List (List Char)),
        p.version = some v → splitChar v.data '-' = p0 :: p1 :: t →
        p0 = v.data.takeWhile (fun c => c != '-') ∧
        (p.get_pkgbuild_entries dl lt).map (fun es => (es[5]?, es[7]?))
          = .ok (some ("pkgver=" ++ (⟨p0⟩ : String)),
                 some ("pkgrel=" ++ (⟨p1.drop 1⟩ : String)))) ∧
    ((({ PkgBuild.init with version := some "1.2.3-r4" } :
        PkgBuild).get_pkgbuild_entries org org_license).map
        (fun es => (es[5]?, es[7]?))
      = .ok (some "pkgver=1.2.3", some "pkgrel=4")) ∧
    ((({ PkgBuild.init with version := some "0.9.0-p10" } :
        PkgBuild).get_pkgbuild_entries org org_license).map
        (fun es => (es[5]?, es[7]?))
      = .ok (some "pkgver=0.9.0", some "pkgrel=10")) := by
  refine ⟨?_, rfl, rfl⟩
  intro p v dl lt p0 p1 t hv hs
  constructor
  · obtain ⟨t2, ht⟩ := splitChar_head v.data '-'
    rw [hs] at ht
    exact (List.cons.inj ht).1
  · rw [get_pkgbuild_entries_eq p v dl lt p0 p1 t hv hs]
    rfl

/-- Witness for the amended C7 at version "1.2.3-r4". -/
theorem C7_witness :
    "1.2.3".data = "1.2.3-r4".data.takeWhile (fun c => c != '-') ∧
    (({ PkgBuild.init with version := some "1.2.3-r4" } :
        PkgBuild).get_pkgbuild_entries org org_license).map
        (fun es => (es[5]?, es[7]?))
      = .ok (some "pkgver=1.2.3", some "pkgrel=4") :=
  C7_version_split_amended.1 _ "1.2.3-r4" org org_license
    "1.2.3".data "r4".data [] rfl (by decide)

/-- Claim C8: when version contains no dash, rendering fails with the
propagated IndexError of the release-segment access and produces no text;
the error is not caught inside the core. -/
theorem C8_dashless_version_fails (p : PkgBuild) (v dl lt : String)
    (hv : p.version = some v) (hnd : ¬ ('-' ∈ v.data)) :
    p.get_pkgbuild_text dl lt = .error .indexError := by
  unfold PkgBuild.get_pkgbuild_text PkgBuild.get_pkgbuild_entries
  rw [hv]
  simp only [splitChar_of_not_mem hnd]
  rfl

/-- Witness for C8 at the dash-free version "123". -/
theorem C8_witness :
    ({ PkgBuild.init with version := some "123" } :
        PkgBuild).get_pkgbuild_text org org_license = .error .indexError :=
  C8_dashless_version_fails _ "123" org org_license rfl (by decide)

/-- Claim C9: the makedepends field is the space-joined list of the
internal build dependencies prefixed with "ros-distro-" followed by the
external ones verbatim, each entry beginning with "python3" rewritten to
begin with "python" (first occurrence only); in particular an external
"python3-numpy" renders as "python-numpy". -/
theorem C9_makedepends_field :
    (∀ (p : PkgBuild) (dl lt : String),
        (p.get_pkgbuild_entries dl lt).isOk = true →
        (p.get_pkgbuild_entries dl lt).map (fun es => es[11]?)
          = .ok (some ("makedepends=(" ++ String.intercalate " "
              (((p.depends.map
                  (fun d => "ros-" ++ pyStr p.distro ++ "-" ++ d))
                ++ p.depends_external).map (fun dep =>
                  if pyStartswith dep "python3" then
                    "python" ++ (⟨dep.data.drop 7⟩ : String)
                  else dep)) ++ ")"))) ∧
    ((({ PkgBuild.init with
          version := some "1.0-r1",
          depends_external := ["python3-numpy"] } :
        PkgBuild).get_pkgbuild_entries org org_license).map
        (fun es => es[11]?)
      = .ok (some "makedepends=(python-numpy)")) := by
  constructor
  · intro p dl lt hok
    have hfun : python3_rewrite = (fun dep =>
        if pyStartswith dep "python3" then
          "python" ++ (⟨dep.data.drop 7⟩ : String)
        else dep) := funext python3_rewrite_eq
    cases hv : p.version with
    | none =>
      have hbad : p.get_pkgbuild_entries dl lt = .error .attributeError := by
        unfold PkgBuild.get_pkgbuild_entries
        rw [hv]
      rw [hbad] at hok
      cases hok
    | some v =>
      rcases hs : splitChar v.data '-' with _ | ⟨p0, _ | ⟨p1, t⟩⟩
      · have hbad : p.get_pkgbuild_entries dl lt = .error .indexError := by
          unfold PkgBuild.get_pkgbuild_entries
          rw [hv]
          simp only [hs]
        rw [hbad] at hok
        cases hok
      · have hbad : p.get_pkgbuild_entries dl lt = .error .indexError := by
          unfold PkgBuild.get_pkgbuild_entries
          rw [hv]
          simp only [hs]
        rw [hbad] at hok
        cases hok
      · rw [get_pkgbuild_entries_eq p v dl lt p0 p1 t hv hs, hfun]
        rfl
  · rfl

/-- Witness for C9 at a model with one python3 and one plain external
build dependency. -/
theorem C9_witness :
    (({ PkgBuild.init with
        version := some "1.0-r1",
        depends_external := ["python3-numpy", "gtest"] } :
        PkgBuild).get_pkgbuild_entries org org_license).map
        (fun es => es[11]?)
      = .ok (some "makedepends=(python-numpy gtest)") :=
  C9_makedepends_field.1 _ org org_license (by decide)

/-- Claim C10: when the package-xml fetch fails the builder returns the
model with all classification preserved and the four descriptive fields
at their defaults; when it succeeds those fields come from the fetched
metadata; the six dependency buckets are identical in both outcomes. -/
theorem C10_metadata_fetch_degradation (dn su : String)
    (ns btd bd rd td : List String) (m : PackageMetadata) :
    ((gen_pkgbuild_for_package dn su ns btd bd rd td none).upstream_license
        = ["LGPL-2"] ∧
      (gen_pkgbuild_for_package dn su ns btd bd rd td none).description
        = "" ∧
      (gen_pkgbuild_for_package dn su ns btd bd rd td none).homepage
        = "https://wiki.ros.org" ∧
      (gen_pkgbuild_for_package dn su ns btd bd rd td none).build_type
        = "catkin") ∧
    ((gen_pkgbuild_for_package dn su ns btd bd rd td
        (some m)).upstream_license = m.upstream_license ∧
      (gen_pkgbuild_for_package dn su ns btd bd rd td (some m)).description
        = m.description ∧
      (gen_pkgbuild_for_package dn su ns btd bd rd td (some m)).homepage
        = m.homepage ∧
      (gen_pkgbuild_for_package dn su ns btd bd rd td (some m)).build_type
        = m.build_type) ∧
    ((gen_pkgbuild_for_package dn su ns btd bd rd td none).depends
        = (gen_pkgbuild_for_package dn su ns btd bd rd td (some m)).depends ∧
      (gen_pkgbuild_for_package dn su ns btd bd rd td none).depends_external
        = (gen_pkgbuild_for_package dn su ns btd bd rd td
            (some m)).depends_external ∧
      (gen_pkgbuild_for_package dn su ns btd bd rd td none).rdepends
        = (gen_pkgbuild_for_package dn su ns btd bd rd td (some m)).rdepends ∧
      (gen_pkgbuild_for_package dn su ns btd bd rd td none).rdepends_external
        = (gen_pkgbuild_for_package dn su ns btd bd rd td
            (some m)).rdepends_external ∧
      (gen_pkgbuild_for_package dn su ns btd bd rd td none).tdepends
        = (gen_pkgbuild_for_package dn su ns btd bd rd td (some m)).tdepends ∧
      (gen_pkgbuild_for_package dn su ns btd bd rd td none).tdepends_external
        = (gen_pkgbuild_for_package dn su ns btd bd rd td
            (some m)).tdepends_external) := by
  have h := descrFields_gen_none dn su ns btd bd rd td
  simp only [descrFields, Prod.mk.injEq] at h
  obtain ⟨h1, h2, h3, h4⟩ := h
  exact ⟨⟨h1, h2, h3, h4⟩, ⟨rfl, rfl, rfl, rfl⟩,
    rfl, rfl, rfl, rfl, rfl, rfl⟩

end Superflore
